import Mathlib

/-!
Verification of the content-fetching core of `src/utils/utils.py`
(`get_content` and `check_data_url`).

Shallow embedding notes:
* Python `str` values are modelled as Lean `String` / `List Char`; `bytes`
  values as `List Nat` (each element `< 256`).
* The regular expression `^data:([\w\/\+-]*)(;charset=[\w-]+)?(;base64)?,(.*)`
  applied with `re.match` is modelled by the explicit parser `matchDataUrlL`.
  The character class `\w` is modelled by its ASCII fragment
  (`[A-Za-z0-9_]`); all behaviour relevant to the verified claims is over
  ASCII URLs.  Because `;` and `,` are outside all character classes used by
  the pattern, the greedy left-to-right parse below is equivalent to the
  backtracking regex on every input.
* `base64.b64decode` (with its default `validate=False`) is modelled by
  `b64decode`, following CPython's `binascii.a2b_base64` in legacy
  (non-strict) mode: characters outside the alphabet are skipped, output
  bytes are produced eagerly per quad, a padding sequence completing a quad
  terminates decoding, and a leftover partial quad at the end raises
  `binascii.Error` (modelled by `B64Err`).
* The network is modelled as an oracle `net : String → HttpOutcome` giving,
  per URL, either an `HttpResponse` or one of the exceptions that the
  `try/except` block of `get_content` catches (`aiohttp.InvalidURL`,
  `asyncio.TimeoutError`, `aiohttp.ClientConnectionError`).
* Exceptions raised by the Python code are the `.error` branch of `Except`;
  `PyErr` separates errors explicitly raised by `utils.py` itself
  (`ValueError(msg)`, `BadResponseError`) from exceptions that escape from
  library calls unmodified (`TypeError`, `KeyError`, `binascii.Error`,
  JSON parse errors).
* Python's implicit `return None` (when `content_type` is none of `json`,
  `bytes`, `image` and the status is 200) is the `.ok none` result.
-/

/-- ASCII fragment of the regex class `\w`: letters, digits, underscore. -/
def wordChar (c : Char) : Bool :=
  c.isAlpha || c.isDigit || c == '_'

/-- The regex class `[\w\/\+-]` used for the media-type group. -/
def mimeClass (c : Char) : Bool :=
  wordChar c || c == '/' || c == '+' || c == '-'

/-- The regex class `[\w-]` used for the charset group. -/
def charsetClass (c : Char) : Bool :=
  wordChar c || c == '-'

/-- `startsWithL pre cs` holds when `pre` is an initial segment of `cs`. -/
def startsWithL : List Char → List Char → Bool
  | [], _ => true
  | _ :: _, [] => false
  | a :: as, b :: bs => a == b && startsWithL as bs

/-- Python's substring test `needle in hay` on strings, over `List Char`. -/
def strInL (needle : List Char) : List Char → Bool
  | [] => needle.isEmpty
  | c :: rest => startsWithL needle (c :: rest) || strInL needle rest

/-- Python's substring test `needle in hay` on `String`s. -/
def strIn (needle hay : String) : Bool :=
  strInL needle.toList hay.toList

/-- Strip a literal off the front of a character list, or fail. -/
def dropLit : List Char → List Char → Option (List Char)
  | [], cs => some cs
  | _ :: _, [] => none
  | p :: ps, c :: cs => if c == p then dropLit ps cs else none

/-- The four capture groups of the data-URL regex
`^data:([\w\/\+-]*)(;charset=[\w-]+)?(;base64)?,(.*)`:
`groups[0]` media type, `groups[1]` charset segment, `groups[2]` the
`;base64` flag, `groups[3]` the payload. -/
structure DataUrlGroups where
  mimeType : List Char
  charset : Option (List Char)
  base64Flag : Option (List Char)
  payload : List Char
deriving DecidableEq, Repr

/-- The optional group `(;charset=[\w-]+)?`: either consume `;charset=`
followed by a nonempty run of `[\w-]`, or leave the input unchanged. -/
def parseCharsetOpt (cs : List Char) : Option (List Char) × List Char :=
  match dropLit ";charset=".toList cs with
  | none => (none, cs)
  | some rest =>
      let run := rest.takeWhile charsetClass
      if run.isEmpty then (none, cs)
      else (some (";charset=".toList ++ run), rest.dropWhile charsetClass)

/-- The optional group `(;base64)?`. -/
def parseB64Opt (cs : List Char) : Option (List Char) × List Char :=
  match dropLit ";base64".toList cs with
  | none => (none, cs)
  | some rest => (some ";base64".toList, rest)

/-- The part of the data-URL regex after the literal `data:`:
the greedy media-type run (`[\w\/\+-]*`), the two optional groups, the
literal comma, and the payload (`(.*)`, which stops at a newline since `.`
does not match one and `re.match` does not anchor the end). -/
def matchGroups (r0 : List Char) : Option DataUrlGroups :=
  match parseB64Opt (parseCharsetOpt (r0.dropWhile mimeClass)).2 with
  | (b64, ',' :: r4) =>
      some ⟨r0.takeWhile mimeClass, (parseCharsetOpt (r0.dropWhile mimeClass)).1, b64,
        r4.takeWhile (fun c => c != '\n')⟩
  | _ => none

/-- `re.match(r"^data:([\w\/\+-]*)(;charset=[\w-]+)?(;base64)?,(.*)", url)`.
Because `;` and `,` lie outside every character class of the pattern, this
greedy left-to-right parse agrees with the backtracking regex engine on all
inputs. -/
def matchDataUrlL (cs : List Char) : Option DataUrlGroups :=
  match dropLit "data:".toList cs with
  | none => none
  | some r0 => matchGroups r0

/-- Errors that escape from `base64.b64decode` unmodified:
`ValueError` for a non-ASCII `str` argument, and `binascii.Error`
("Invalid base64-encoded string: number of data characters ... cannot be 1
more than a multiple of 4" / "Incorrect padding") for a leftover quad. -/
inductive B64Err where
  | nonAsciiStr
  | invalidCharCount
  | incorrectPadding
deriving DecidableEq, Repr

/-- Value of a character in the standard base64 alphabet
(CPython's `table_a2b_base64`). -/
def b64val (c : Char) : Option Nat :=
  if 'A' ≤ c ∧ c ≤ 'Z' then some (c.toNat - 65)
  else if 'a' ≤ c ∧ c ≤ 'z' then some (c.toNat - 97 + 26)
  else if '0' ≤ c ∧ c ≤ '9' then some (c.toNat - 48 + 52)
  else if c = '+' then some 62
  else if c = '/' then some 63
  else none

/-- CPython's `binascii.a2b_base64` in legacy (non-strict) mode.
State: `quadPos` is the position within the current 4-character quad,
`leftchar` holds the pending bits, `pads` counts padding characters seen in
the current quad.  Bytes are emitted eagerly; a pad sequence completing a
quad (`quadPos + pads ≥ 4` with `quadPos ≥ 2`) ends decoding; characters
outside the alphabet are skipped; a pad at `quadPos < 2` is ignored; a
leftover quad at the end is an error. -/
def a2b : List Char → Nat → Nat → Nat → Except B64Err (List Nat)
  | [], quadPos, _, _ =>
      if quadPos = 0 then .ok []
      else if quadPos = 1 then .error .invalidCharCount
      else .error .incorrectPadding
  | c :: rest, quadPos, leftchar, pads =>
      if c = '=' then
        if 2 ≤ quadPos then
          if 4 ≤ quadPos + (pads + 1) then .ok []
          else a2b rest quadPos leftchar (pads + 1)
        else a2b rest quadPos leftchar pads
      else
        match b64val c with
        | none => a2b rest quadPos leftchar pads
        | some v =>
            match quadPos with
            | 0 => a2b rest 1 v 0
            | 1 => (a2b rest 2 (v % 16) 0).map (fun out => (leftchar * 4 + v / 16) :: out)
            | 2 => (a2b rest 3 (v % 4) 0).map (fun out => (leftchar * 16 + v / 4) :: out)
            | _ => (a2b rest 0 0 0).map (fun out => (leftchar * 64 + v) :: out)

/-- `base64.b64decode(s)` for a `str` argument with default
`validate=False`: the string is first converted to ASCII bytes (raising
`ValueError` if impossible), then fed to legacy `a2b_base64`. -/
def b64decode (p : List Char) : Except B64Err (List Nat) :=
  if p.all (fun c => c.toNat < 128) then a2b p 0 0 0 else .error .nonAsciiStr

/-- Standard base64 character for a 6-bit value. -/
def b64chr (n : Nat) : Char :=
  if n < 26 then Char.ofNat (65 + n)
  else if n < 52 then Char.ofNat (97 + (n - 26))
  else if n < 62 then Char.ofNat (48 + (n - 52))
  else if n = 62 then '+' else '/'

/-- `base64.b64encode` of a byte list, as the character list of the
resulting ASCII string. -/
def b64encode : List Nat → List Char
  | [] => []
  | [a] => [b64chr (a / 4), b64chr (a % 4 * 16), '=', '=']
  | [a, b] => [b64chr (a / 4), b64chr (a % 4 * 16 + b / 16), b64chr (b % 16 * 4), '=']
  | a :: b :: c :: rest =>
      b64chr (a / 4) :: b64chr (a % 4 * 16 + b / 16) ::
      b64chr (b % 16 * 4 + c / 64) :: b64chr (c % 64) :: b64encode rest

/-- A Python value produced by `get_content` / `check_data_url`:
a `bytes` object, a `str`, or an opaque parsed-JSON value (the result of
`r.json()`, whose structure none of the verified claims depend on). -/
inductive PyVal where
  | bytes (bs : List Nat)
  | str (s : List Char)
  | json (v : Nat)
deriving DecidableEq, Repr

/-- Python truthiness for the values `check_data_url` can produce:
`bytes` and `str` are truthy iff nonempty.  (`check_data_url` never
produces a `.json` value, so its truthiness is never consulted by
`get_content`.) -/
def PyVal.isTruthy : PyVal → Bool
  | .bytes bs => !bs.isEmpty
  | .str s => !s.isEmpty
  | .json _ => true

/-- An exception surfaced by the embedded code.  `valueError` and
`badResponseError` are raised explicitly by `utils.py`; the remaining
constructors are exceptions escaping unmodified from library calls:
`typeError` from evaluating `"base64" in None`, `keyError` from
`r.headers["content-type"]` when the header is absent, `b64LibError` from
`base64.b64decode`, `jsonError` from `r.json()` on an unparsable body. -/
inductive PyErr where
  | valueError (msg : String)
  | badResponseError (status : Nat)
  | typeError
  | keyError
  | b64LibError (e : B64Err)
  | jsonError
deriving DecidableEq, Repr

/-- Errors that `utils.py` raises itself (its local failure classification),
as opposed to raw exceptions leaking unmodified from library calls. -/
def locallyClassified : PyErr → Bool
  | .valueError _ => true
  | .badResponseError _ => true
  | _ => false

/-- `check_data_url(url)` from `src/utils/utils.py`:
match the data-URL regex; on no match return `None`; otherwise reject a
media type not containing `"image"`, then evaluate
`"base64" in groups[2]` — which raises `TypeError` when the `;base64`
group is absent (`groups[2] is None`) — and base64-decode the payload when
the flag is present, else return the payload string as-is. -/
def check_data_url (url : String) : Except PyErr (Option PyVal) :=
  match matchDataUrlL url.toList with
  | none => .ok none
  | some g =>
      if strInL "image".toList g.mimeType = false then
        .error (.valueError "Only images are supported with data URLs.")
      else
        match g.base64Flag with
        | none => .error .typeError
        | some enc =>
            if strInL "base64".toList enc then
              match b64decode g.payload with
              | .ok bs => .ok (some (.bytes bs))
              | .error e => .error (.b64LibError e)
            else .ok (some (.str g.payload))

/-- An HTTP response as observed by `get_content`: status code, the
`content-type` header (if present), the raw body (`r.read()`), and the
result of `r.json()` (an opaque parsed value, or a parse failure). -/
structure HttpResponse where
  status : Nat
  contentType : Option String
  body : List Nat
  jsonBody : Except Unit Nat

/-- Outcome of `session.get(url)` as seen through `get_content`'s
`try/except`: a response, or one of the three caught exception classes. -/
inductive HttpOutcome where
  | success (r : HttpResponse)
  | raiseInvalidURL
  | raiseTimeout
  | raiseConnectionError

/-- The response-handling block of `get_content` (the body of
`async with session.get(url) as r`): a non-200 status raises
`BadResponseError` (its message interpolates the status code, modelled by
the `status` field); at status 200 the body is decoded per `content_type`,
and an unrecognized `content_type` falls off the end of the function,
returning `None`. -/
def handle_response (r : HttpResponse) (content_type : String) :
    Except PyErr (Option PyVal) :=
  if r.status = 200 then
    if content_type = "json" then
      match r.jsonBody with
      | .ok v => .ok (some (.json v))
      | .error _ => .error .jsonError
    else if content_type = "bytes" then .ok (some (.bytes r.body))
    else if content_type = "image" then
      match r.contentType with
      | none => .error .keyError
      | some ct =>
          if strIn "image" ct = false then
            .error (.valueError "The URL doesn't contain any image.")
          else .ok (some (.bytes r.body))
    else .ok none
  else .error (.badResponseError r.status)

/-- The network branch of `get_content` (the spec's Remote Fetcher): the
`async with session.get(url)` request wrapped in the three `except`
clauses re-surfacing `InvalidURL`, `asyncio.TimeoutError` and
`ClientConnectionError` as `ValueError`s. -/
def network_fetch (net : String → HttpOutcome) (url : String)
    (content_type : String) : Except PyErr (Option PyVal) :=
  match net url with
  | .raiseInvalidURL => .error (.valueError "The URL provided is invalid.")
  | .raiseTimeout => .error (.valueError "Couldn't connect to URL. (Timeout)")
  | .raiseConnectionError => .error (.valueError "Couldn't connect to URL.")
  | .success r => handle_response r content_type

/-- `get_content(url, content_type)` from `src/utils/utils.py`:
first try `check_data_url` (its exceptions propagate — the call is outside
the `try`); if its result is truthy, return it; otherwise fall through to
the network path. -/
def get_content (net : String → HttpOutcome) (url : String)
    (content_type : String) : Except PyErr (Option PyVal) :=
  match check_data_url url with
  | .error e => .error e
  | .ok (some d) => if d.isTruthy then .ok (some d) else network_fetch net url content_type
  | .ok none => network_fetch net url content_type

deriving instance DecidableEq for Except

/-! ### Helper lemmas about the base64 model -/

/-- Decoding value of an encoding character. -/
theorem b64val_b64chr : ∀ n, n < 64 → b64val (b64chr n) = some n := by decide

/-- Encoding characters are never the padding character. -/
theorem b64chr_ne_pad : ∀ n, n < 64 → ¬ b64chr n = '=' := by decide

/-- Encoding characters are ASCII. -/
theorem b64chr_lt128 : ∀ n, n < 64 → (b64chr n).toNat < 128 := by decide

/-- Encoding characters are never a newline. -/
theorem b64chr_ne_nl : ∀ n, n < 64 → (b64chr n == '\n') = false := by decide

/-- Decoding a full canonical quad emits three bytes and continues. -/
theorem a2b_quad (x1 x2 x3 x4 : Nat) (h1 : x1 < 64) (h2 : x2 < 64) (h3 : x3 < 64)
    (h4 : x4 < 64) (rest : List Char) :
    a2b (b64chr x1 :: b64chr x2 :: b64chr x3 :: b64chr x4 :: rest) 0 0 0
      = (a2b rest 0 0 0).map
          (fun out => (x1 * 4 + x2 / 16) :: (x2 % 16 * 16 + x3 / 4) :: (x3 % 4 * 64 + x4) :: out) := by
  simp only [a2b, if_neg (b64chr_ne_pad _ h1), if_neg (b64chr_ne_pad _ h2),
    if_neg (b64chr_ne_pad _ h3), if_neg (b64chr_ne_pad _ h4),
    b64val_b64chr _ h1, b64val_b64chr _ h2, b64val_b64chr _ h3, b64val_b64chr _ h4]
  cases a2b rest 0 0 0 <;> simp [Except.map]

/-- Decoding a final quad with two padding characters emits one byte and
stops. -/
theorem a2b_two_pads (x1 x2 : Nat) (h1 : x1 < 64) (h2 : x2 < 64) (rest : List Char) :
    a2b (b64chr x1 :: b64chr x2 :: '=' :: '=' :: rest) 0 0 0 = .ok [x1 * 4 + x2 / 16] := by
  simp only [a2b, if_neg (b64chr_ne_pad _ h1), if_neg (b64chr_ne_pad _ h2),
    b64val_b64chr _ h1, b64val_b64chr _ h2]
  simp [Except.map]

/-- Decoding a final quad with one padding character emits two bytes and
stops. -/
theorem a2b_one_pad (x1 x2 x3 : Nat) (h1 : x1 < 64) (h2 : x2 < 64) (h3 : x3 < 64)
    (rest : List Char) :
    a2b (b64chr x1 :: b64chr x2 :: b64chr x3 :: '=' :: rest) 0 0 0
      = .ok [x1 * 4 + x2 / 16, x2 % 16 * 16 + x3 / 4] := by
  simp only [a2b, if_neg (b64chr_ne_pad _ h1), if_neg (b64chr_ne_pad _ h2),
    if_neg (b64chr_ne_pad _ h3), b64val_b64chr _ h1, b64val_b64chr _ h2, b64val_b64chr _ h3]
  simp [Except.map]

/-- The raw decoder inverts the encoder on byte lists. -/
theorem a2b_b64encode : ∀ (bs : List Nat), (∀ x ∈ bs, x < 256) →
    a2b (b64encode bs) 0 0 0 = .ok bs
  | [], _ => rfl
  | [a], h => by
      have ha : a < 256 := h a (by simp)
      show a2b (b64chr (a / 4) :: b64chr (a % 4 * 16) :: '=' :: '=' :: []) 0 0 0 = .ok [a]
      rw [a2b_two_pads _ _ (by omega) (by omega)]
      have e1 : a / 4 * 4 + a % 4 * 16 / 16 = a := by omega
      rw [e1]
  | [a, b], h => by
      have ha : a < 256 := h a (by simp)
      have hb : b < 256 := h b (by simp)
      show a2b (b64chr (a / 4) :: b64chr (a % 4 * 16 + b / 16) :: b64chr (b % 16 * 4) :: '=' :: []) 0 0 0
        = .ok [a, b]
      rw [a2b_one_pad _ _ _ (by omega) (by omega) (by omega)]
      have e1 : a / 4 * 4 + (a % 4 * 16 + b / 16) / 16 = a := by omega
      have e2 : (a % 4 * 16 + b / 16) % 16 * 16 + (b % 16 * 4) / 4 = b := by omega
      rw [e1, e2]
  | a :: b :: c :: rest, h => by
      have ha : a < 256 := h a (by simp)
      have hb : b < 256 := h b (by simp)
      have hc : c < 256 := h c (by simp)
      have ih := a2b_b64encode rest (fun x hx => h x (by simp [hx]))
      show a2b (b64chr (a / 4) :: b64chr (a % 4 * 16 + b / 16) ::
          b64chr (b % 16 * 4 + c / 64) :: b64chr (c % 64) :: b64encode rest) 0 0 0
        = .ok (a :: b :: c :: rest)
      rw [a2b_quad _ _ _ _ (by omega) (by omega) (by omega) (by omega), ih]
      have e1 : a / 4 * 4 + (a % 4 * 16 + b / 16) / 16 = a := by omega
      have e2 : (a % 4 * 16 + b / 16) % 16 * 16 + (b % 16 * 4 + c / 64) / 4 = b := by omega
      have e3 : (b % 16 * 4 + c / 64) % 4 * 64 + c % 64 = c := by omega
      simp [Except.map, e1, e2, e3]

/-- Every character the encoder emits is ASCII and is not a newline. -/
theorem b64encode_mem : ∀ (bs : List Nat), (∀ x ∈ bs, x < 256) →
    ∀ c ∈ b64encode bs, c.toNat < 128 ∧ (c == '\n') = false
  | [], _, c, hc => by simp [b64encode] at hc
  | [a], h, c, hc => by
      have ha : a < 256 := h a (by simp)
      have h1 : a / 4 < 64 := by omega
      have h2 : a % 4 * 16 < 64 := by omega
      simp only [b64encode, List.mem_cons, List.not_mem_nil, or_false] at hc
      rcases hc with rfl | rfl | rfl | rfl
      · exact ⟨b64chr_lt128 _ h1, b64chr_ne_nl _ h1⟩
      · exact ⟨b64chr_lt128 _ h2, b64chr_ne_nl _ h2⟩
      · exact ⟨by decide, by decide⟩
      · exact ⟨by decide, by decide⟩
  | [a, b], h, c, hc => by
      have ha : a < 256 := h a (by simp)
      have hb : b < 256 := h b (by simp)
      have h1 : a / 4 < 64 := by omega
      have h2 : a % 4 * 16 + b / 16 < 64 := by omega
      have h3 : b % 16 * 4 < 64 := by omega
      simp only [b64encode, List.mem_cons, List.not_mem_nil, or_false] at hc
      rcases hc with rfl | rfl | rfl | rfl
      · exact ⟨b64chr_lt128 _ h1, b64chr_ne_nl _ h1⟩
      · exact ⟨b64chr_lt128 _ h2, b64chr_ne_nl _ h2⟩
      · exact ⟨b64chr_lt128 _ h3, b64chr_ne_nl _ h3⟩
      · exact ⟨by decide, by decide⟩
  | a :: b :: d :: rest, h, c, hc => by
      have ha : a < 256 := h a (by simp)
      have hb : b < 256 := h b (by simp)
      have hd : d < 256 := h d (by simp)
      have h1 : a / 4 < 64 := by omega
      have h2 : a % 4 * 16 + b / 16 < 64 := by omega
      have h3 : b % 16 * 4 + d / 64 < 64 := by omega
      have h4 : d % 64 < 64 := by omega
      simp only [b64encode, List.mem_cons] at hc
      rcases hc with rfl | rfl | rfl | rfl | hc
      · exact ⟨b64chr_lt128 _ h1, b64chr_ne_nl _ h1⟩
      · exact ⟨b64chr_lt128 _ h2, b64chr_ne_nl _ h2⟩
      · exact ⟨b64chr_lt128 _ h3, b64chr_ne_nl _ h3⟩
      · exact ⟨b64chr_lt128 _ h4, b64chr_ne_nl _ h4⟩
      · exact b64encode_mem rest (fun x hx => h x (by simp [hx])) c hc

/-- `base64.b64decode` inverts `base64.b64encode` on byte lists. -/
theorem b64_roundtrip (bs : List Nat) (h : ∀ x ∈ bs, x < 256) :
    b64decode (b64encode bs) = .ok bs := by
  unfold b64decode
  rw [if_pos, a2b_b64encode bs h]
  exact List.all_eq_true.mpr
    (fun c hc => decide_eq_true (b64encode_mem bs h c hc).1)

/-! ### Helper lemmas about the data-URL parser -/

/-- Stripping a literal off a list that starts with it. -/
theorem dropLit_append : ∀ (pre rest : List Char), dropLit pre (pre ++ rest) = some rest
  | [], _ => rfl
  | p :: ps, rest => by simp [dropLit, dropLit_append ps rest]

/-- `takeWhile` keeps a list all of whose elements satisfy the predicate. -/
theorem takeWhile_eq_self_of (p : Char → Bool) : ∀ (l : List Char),
    (∀ c ∈ l, p c = true) → l.takeWhile p = l
  | [], _ => rfl
  | c :: t, h => by
      simp [List.takeWhile, h c (by simp),
        takeWhile_eq_self_of p t (fun x hx => h x (by simp [hx]))]

/-- A greedy run over `l ++ rest` stops exactly at the boundary when every
element of `l` satisfies the predicate and the head of `rest` does not. -/
theorem takeWhile_append_of (p : Char → Bool) : ∀ (l rest : List Char),
    (∀ c ∈ l, p c = true) → (∀ c, rest.head? = some c → p c = false) →
    (l ++ rest).takeWhile p = l ∧ (l ++ rest).dropWhile p = rest
  | [], rest, _, h2 => by
      cases rest with
      | nil => exact ⟨rfl, rfl⟩
      | cons c t => simp [List.takeWhile, List.dropWhile, h2 c rfl]
  | c :: l, rest, h, h2 => by
      have hc : p c = true := h c (by simp)
      have ih := takeWhile_append_of p l rest (fun x hx => h x (by simp [hx])) h2
      simp [List.takeWhile, List.dropWhile, hc, ih.1, ih.2]

/-- The charset group never fires on a `;base64,<payload>` remainder. -/
theorem charsetOpt_b64 (p : List Char) :
    parseCharsetOpt (";base64,".toList ++ p) = (none, ";base64,".toList ++ p) := rfl

/-- The base64 group fires on a `;base64,<payload>` remainder. -/
theorem b64Opt_b64 (p : List Char) :
    parseB64Opt (";base64,".toList ++ p) = (some ";base64".toList, ',' :: p) := rfl

/-- The regex match after the `data:` scheme. -/
theorem matchDataUrl_scheme (rest : List Char) :
    matchDataUrlL ("data:".toList ++ rest) = matchGroups rest := by
  unfold matchDataUrlL
  rw [dropLit_append]

/-- Capture groups on a URL of the shape `data:<mt>;base64,<payload>` where
the media type is made of class characters and the payload has no
newline. -/
theorem matchGroups_b64 (mt p : List Char) (hmt : ∀ c ∈ mt, mimeClass c = true)
    (hp : ∀ c ∈ p, (c == '\n') = false) :
    matchGroups (mt ++ (";base64,".toList ++ p))
      = some ⟨mt, none, some ";base64".toList, p⟩ := by
  obtain ⟨h1, h2⟩ := takeWhile_append_of mimeClass mt (";base64,".toList ++ p) hmt
    (fun c hc => by
      have hc2 : some ';' = some c := hc
      cases hc2
      decide)
  unfold matchGroups
  rw [h1, h2, charsetOpt_b64, b64Opt_b64]
  simp
  exact fun x hx => by simpa using hp x hx

/-- The full regex match on `data:<mt>;base64,<payload>`. -/
theorem matchDataUrl_image (mt p : List Char) (hmt : ∀ c ∈ mt, mimeClass c = true)
    (hp : ∀ c ∈ p, (c == '\n') = false) :
    matchDataUrlL ("data:".toList ++ (mt ++ (";base64,".toList ++ p)))
      = some ⟨mt, none, some ";base64".toList, p⟩ := by
  rw [matchDataUrl_scheme, matchGroups_b64 mt p hmt hp]

/-- `check_data_url` on a base64 image data URL reduces to base64-decoding
the payload. -/
theorem check_data_url_image_b64 (mt p : List Char)
    (hmt : ∀ c ∈ mt, mimeClass c = true)
    (himg : strInL "image".toList mt = true)
    (hp : ∀ c ∈ p, (c == '\n') = false) :
    check_data_url ⟨"data:".toList ++ (mt ++ (";base64,".toList ++ p))⟩
      = match b64decode p with
        | .ok bs => .ok (some (.bytes bs))
        | .error e => .error (.b64LibError e) := by
  unfold check_data_url
  rw [show (String.mk ("data:".toList ++ (mt ++ (";base64,".toList ++ p)))).toList
        = "data:".toList ++ (mt ++ (";base64,".toList ++ p)) from rfl]
  rw [matchDataUrl_image mt p hmt hp]
  have himg2 : strInL ['i', 'm', 'a', 'g', 'e'] mt = true := himg
  simp [himg2,
    show strInL ['b', 'a', 's', 'e', '6', '4'] [';', 'b', 'a', 's', 'e', '6', '4'] = true from rfl]

/-! ### Helper lemmas about the network path -/

/-- `network_fetch` under a successful request. -/
theorem network_fetch_success (net : String → HttpOutcome) (url kind : String)
    (r : HttpResponse) (h : net url = .success r) :
    network_fetch net url kind = handle_response r kind := by
  unfold network_fetch
  rw [h]

/-- `network_fetch` under a timeout. -/
theorem network_fetch_timeout (net : String → HttpOutcome) (url kind : String)
    (h : net url = .raiseTimeout) :
    network_fetch net url kind
      = .error (.valueError "Couldn't connect to URL. (Timeout)") := by
  unfold network_fetch
  rw [h]

/-- `network_fetch` under a connection failure. -/
theorem network_fetch_connection (net : String → HttpOutcome) (url kind : String)
    (h : net url = .raiseConnectionError) :
    network_fetch net url kind = .error (.valueError "Couldn't connect to URL.") := by
  unfold network_fetch
  rw [h]

/-- `network_fetch` under an invalid URL. -/
theorem network_fetch_invalid (net : String → HttpOutcome) (url kind : String)
    (h : net url = .raiseInvalidURL) :
    network_fetch net url kind = .error (.valueError "The URL provided is invalid.") := by
  unfold network_fetch
  rw [h]

/-- `handle_response` on a non-200 status. -/
theorem handle_response_bad (r : HttpResponse) (kind : String) (h : r.status ≠ 200) :
    handle_response r kind = .error (.badResponseError r.status) := by
  unfold handle_response
  rw [if_neg h]

/-! ### Claim theorems -/

/-- C2 (code bug): for a data URL whose media type contains "image" but
which carries no `;base64` flag, `check_data_url` does not return the
payload as-is: `groups[2]` is `None`, so evaluating `"base64" in encoding`
raises `TypeError`, and `get_content` propagates it (the intended
`data_bytes = data` branch is unreachable). -/
theorem c2_missing_b64_flag_type_error :
    check_data_url "data:image/png,hello" = .error .typeError ∧
    get_content (fun _ => .raiseTimeout) "data:image/png,hello" "image"
      = .error .typeError := by
  constructor <;> rfl

/-- C3: a URL matching the data-URI grammar whose media type does not
contain "image" makes `get_content` fail with
`ValueError("Only images are supported with data URLs.")`, for every
requested kind and independently of the network. -/
theorem c3_non_image_data_url (net : String → HttpOutcome) (url kind : String)
    (g : DataUrlGroups) (hm : matchDataUrlL url.toList = some g)
    (himg : strInL "image".toList g.mimeType = false) :
    get_content net url kind
      = .error (.valueError "Only images are supported with data URLs.") := by
  have himg2 : strInL ['i', 'm', 'a', 'g', 'e'] g.mimeType = false := himg
  unfold get_content check_data_url
  rw [hm]
  simp [himg2]

/-- C3 witness. -/
theorem c3_witness :
    get_content (fun _ => .raiseTimeout) "data:text/plain;base64,aGk=" "json"
      = .error (.valueError "Only images are supported with data URLs.") :=
  c3_non_image_data_url _ _ _
    ⟨"text/plain".toList, none, some ";base64".toList, "aGk=".toList⟩
    (by decide) (by decide)

/-- C4: on a non-data URL, a response with status other than 200 makes
`get_content` fail with `BadResponseError` carrying the status code, for
every requested kind. -/
theorem c4_bad_status (net : String → HttpOutcome) (url kind : String)
    (r : HttpResponse) (hm : matchDataUrlL url.toList = none)
    (hr : net url = .success r) (hs : r.status ≠ 200) :
    get_content net url kind = .error (.badResponseError r.status) := by
  unfold get_content check_data_url network_fetch handle_response
  rw [hm, hr]
  simp [hs]

/-- C4 witness. -/
theorem c4_witness :
    get_content (fun _ => .success ⟨404, some "text/html", [], .error ()⟩)
      "https://example.com/missing" "bytes" = .error (.badResponseError 404) :=
  c4_bad_status _ _ _ ⟨404, some "text/html", [], .error ()⟩ (by decide) rfl (by decide)

/-- C5: on the network path with kind `image` and status 200, the result is
decided by the server-declared content-type header: no "image" substring
fails with `ValueError("The URL doesn't contain any image.")`, otherwise
the raw body bytes are returned unmodified. -/
theorem c5_image_content_type (net : String → HttpOutcome) (url : String)
    (r : HttpResponse) (ct : String) (hm : matchDataUrlL url.toList = none)
    (hr : net url = .success r) (hs : r.status = 200)
    (hct : r.contentType = some ct) :
    (strIn "image" ct = false →
       get_content net url "image"
         = .error (.valueError "The URL doesn't contain any image.")) ∧
    (strIn "image" ct = true →
       get_content net url "image" = .ok (some (.bytes r.body))) := by
  unfold get_content check_data_url network_fetch handle_response
  rw [hm, hr]
  constructor <;> intro h <;> simp [hs, hct, h]

/-- C5 witness: both directions at concrete responses. -/
theorem c5_witness :
    get_content (fun _ => .success ⟨200, some "text/plain", [9, 9], .error ()⟩)
      "https://example.com/a" "image"
      = .error (.valueError "The URL doesn't contain any image.") ∧
    get_content (fun _ => .success ⟨200, some "image/png", [1, 2, 3], .error ()⟩)
      "https://example.com/b" "image" = .ok (some (.bytes [1, 2, 3])) :=
  ⟨(c5_image_content_type _ _ ⟨200, some "text/plain", [9, 9], .error ()⟩ "text/plain"
      (by decide) rfl rfl rfl).1 (by decide),
   (c5_image_content_type _ _ ⟨200, some "image/png", [1, 2, 3], .error ()⟩ "image/png"
      (by decide) rfl rfl rfl).2 (by decide)⟩

/-- C6: on the network path, a timeout is re-surfaced as
`ValueError("Couldn't connect to URL. (Timeout)")`, which is a different
error value from the generic connection failure
(`ValueError("Couldn't connect to URL.")`) and from the invalid-URL error
(`ValueError("The URL provided is invalid.")`). -/
theorem c6_timeout_distinct (url kind : String)
    (hm : matchDataUrlL url.toList = none) :
    (∀ net, net url = .raiseTimeout →
       get_content net url kind
         = .error (.valueError "Couldn't connect to URL. (Timeout)")) ∧
    (∀ net, net url = .raiseConnectionError →
       get_content net url kind = .error (.valueError "Couldn't connect to URL.")) ∧
    (∀ net, net url = .raiseInvalidURL →
       get_content net url kind = .error (.valueError "The URL provided is invalid.")) ∧
    PyErr.valueError "Couldn't connect to URL. (Timeout)"
      ≠ PyErr.valueError "Couldn't connect to URL." ∧
    PyErr.valueError "Couldn't connect to URL. (Timeout)"
      ≠ PyErr.valueError "The URL provided is invalid." := by
  refine ⟨?_, ?_, ?_, by decide, by decide⟩ <;>
    (intro net hr
     unfold get_content check_data_url network_fetch handle_response
     rw [hm, hr])

/-- C6 witness. -/
theorem c6_witness :
    get_content (fun _ => .raiseTimeout) "https://slow.example.com" "json"
      = .error (.valueError "Couldn't connect to URL. (Timeout)") ∧
    get_content (fun _ => .raiseConnectionError) "https://slow.example.com" "json"
      = .error (.valueError "Couldn't connect to URL.") ∧
    get_content (fun _ => .raiseInvalidURL) "https://slow.example.com" "json"
      = .error (.valueError "The URL provided is invalid.") :=
  ⟨(c6_timeout_distinct "https://slow.example.com" "json" (by decide)).1 _ rfl,
   (c6_timeout_distinct "https://slow.example.com" "json" (by decide)).2.1 _ rfl,
   (c6_timeout_distinct "https://slow.example.com" "json" (by decide)).2.2.1 _ rfl⟩

/-- C9: on the network path with status 200 and a `content_type` argument
other than "json", "bytes" or "image", `get_content` falls off the end of
the function and returns Python's implicit `None`. -/
theorem c9_unknown_kind_returns_none (net : String → HttpOutcome)
    (url kind : String) (r : HttpResponse) (hm : matchDataUrlL url.toList = none)
    (hr : net url = .success r) (hs : r.status = 200)
    (hj : kind ≠ "json") (hb : kind ≠ "bytes") (hi : kind ≠ "image") :
    get_content net url kind = .ok none := by
  unfold get_content check_data_url network_fetch handle_response
  rw [hm, hr]
  simp [hs, hj, hb, hi]

/-- C9 witness. -/
theorem c9_witness :
    get_content (fun _ => .success ⟨200, some "text/plain", [1], .ok 7⟩)
      "https://example.com/t" "text" = .ok none :=
  c9_unknown_kind_returns_none _ _ "text" ⟨200, some "text/plain", [1], .ok 7⟩
    (by decide) rfl rfl (by decide) (by decide) (by decide)

/-- C10: the inline short-circuit `if data:` tests truthiness, not the
`None` sentinel: on a matching image data URL whose base64 payload decodes
to the empty byte string, the inline result is discarded and the call is
decided by the network path. -/
theorem c10_empty_inline_falls_through (net : String → HttpOutcome)
    (url kind : String) (g : DataUrlGroups) (f : List Char)
    (hm : matchDataUrlL url.toList = some g)
    (himg : strInL "image".toList g.mimeType = true)
    (hflag : g.base64Flag = some f) (hf : strInL "base64".toList f = true)
    (hdec : b64decode g.payload = .ok []) :
    get_content net url kind = network_fetch net url kind := by
  have himg2 : strInL ['i', 'm', 'a', 'g', 'e'] g.mimeType = true := himg
  have hf2 : strInL ['b', 'a', 's', 'e', '6', '4'] f = true := hf
  unfold get_content check_data_url
  rw [hm]
  simp [himg2, hflag, hf2, hdec, PyVal.isTruthy]

/-- C10 witness: with an empty payload the result comes from the network
(here a 404, surfaced as `BadResponseError`), not from the inline data. -/
theorem c10_witness :
    get_content (fun _ => .success ⟨404, none, [], .error ()⟩)
      "data:image/png;base64," "image"
      = network_fetch (fun _ => .success ⟨404, none, [], .error ()⟩)
          "data:image/png;base64," "image" :=
  c10_empty_inline_falls_through _ _ _
    ⟨"image/png".toList, none, some ";base64".toList, []⟩ ";base64".toList
    (by decide) (by decide) rfl (by decide) (by decide)

/-- C7 counterexample: on a base64 data URL with a malformed payload the
call does not fail with a locally classified error — the raw
`binascii.Error` from `base64.b64decode` escapes unmodified. -/
theorem c7_counterexample :
    get_content (fun _ => .raiseConnectionError) "data:image/png;base64,A" "image"
      = .error (.b64LibError .invalidCharCount) ∧
    locallyClassified (.b64LibError .invalidCharCount) = false := by
  constructor <;> rfl

/-- C7 (amended): on a matching image data URL with the `;base64` flag and
a payload rejected by `base64.b64decode`, `get_content` fails with the
library error propagating unmodified (not one of the errors the module
raises itself), for every kind and independently of the network. -/
theorem c7_raw_b64_error (net : String → HttpOutcome) (url kind : String)
    (g : DataUrlGroups) (f : List Char) (e : B64Err)
    (hm : matchDataUrlL url.toList = some g)
    (himg : strInL "image".toList g.mimeType = true)
    (hflag : g.base64Flag = some f) (hf : strInL "base64".toList f = true)
    (hdec : b64decode g.payload = .error e) :
    get_content net url kind = .error (.b64LibError e) ∧
    locallyClassified (.b64LibError e) = false := by
  have himg2 : strInL ['i', 'm', 'a', 'g', 'e'] g.mimeType = true := himg
  have hf2 : strInL ['b', 'a', 's', 'e', '6', '4'] f = true := hf
  constructor
  · unfold get_content check_data_url
    rw [hm]
    simp [himg2, hflag, hf2, hdec]
  · rfl

/-- C7 witness. -/
theorem c7_witness :
    get_content (fun _ => .raiseTimeout) "data:image/gif;base64,AB" "bytes"
      = .error (.b64LibError .incorrectPadding) ∧
    locallyClassified (.b64LibError .incorrectPadding) = false :=
  c7_raw_b64_error _ _ _
    ⟨"image/gif".toList, none, some ";base64".toList, "AB".toList⟩
    ";base64".toList .incorrectPadding (by decide) (by decide) rfl (by decide) (by decide)

/-- C1 counterexample: for the well-formed data URI `data:image/png;base64,`
(valid empty base64 payload) the call does not return the decoded bytes
`b""`: the truthiness test discards them and the network is consulted
(here the result is a timeout error). -/
theorem c1_counterexample :
    get_content (fun _ => .raiseTimeout) "data:image/png;base64," "image"
      = .error (.valueError "Couldn't connect to URL. (Timeout)") ∧
    get_content (fun _ => .raiseTimeout) "data:image/png;base64," "image"
      ≠ .ok (some (.bytes [])) := by
  constructor
  · rfl
  · decide

/-- C1 (amended): for every data URL `data:<mt>;base64,<payload>` whose
media type is made of regex-class characters and contains "image", and
whose payload base64-decodes to a NONEMPTY byte string, `get_content` with
kind `image` returns exactly the decoded bytes for every network oracle
(so without any network access); in particular encoding arbitrary nonempty
bytes and fetching the resulting URI returns them unchanged. -/
theorem c1_inline_b64_roundtrip (net : String → HttpOutcome) (mt : List Char)
    (hmt : ∀ c ∈ mt, mimeClass c = true)
    (himg : strInL "image".toList mt = true) :
    (∀ (p : List Char) (bs : List Nat), (∀ c ∈ p, (c == '\n') = false) →
       b64decode p = .ok bs → bs ≠ [] →
       get_content net ⟨"data:".toList ++ (mt ++ (";base64,".toList ++ p))⟩ "image"
         = .ok (some (.bytes bs))) ∧
    (∀ bs : List Nat, (∀ x ∈ bs, x < 256) → bs ≠ [] →
       get_content net ⟨"data:".toList ++ (mt ++ (";base64,".toList ++ b64encode bs))⟩ "image"
         = .ok (some (.bytes bs))) := by
  have main : ∀ (p : List Char) (bs : List Nat), (∀ c ∈ p, (c == '\n') = false) →
      b64decode p = .ok bs → bs ≠ [] →
      get_content net ⟨"data:".toList ++ (mt ++ (";base64,".toList ++ p))⟩ "image"
        = .ok (some (.bytes bs)) := by
    intro p bs hp hdec hne
    unfold get_content
    rw [check_data_url_image_b64 mt p hmt himg hp, hdec]
    cases bs with
    | nil => cases hne rfl
    | cons a t => simp [PyVal.isTruthy]
  exact ⟨main, fun bs h hne => main (b64encode bs) bs
    (fun c hc => (b64encode_mem bs h c hc).2) (b64_roundtrip bs h) hne⟩

/-- C1 witness: a concrete decode and a concrete round trip. -/
theorem c1_witness :
    get_content (fun _ => .raiseTimeout)
      ⟨"data:".toList ++ ("image/png".toList ++ (";base64,".toList ++ "SGk=".toList))⟩
      "image" = .ok (some (.bytes [72, 105])) ∧
    get_content (fun _ => .raiseTimeout)
      ⟨"data:".toList ++ ("image/png".toList ++ (";base64,".toList ++ b64encode [0, 255]))⟩
      "image" = .ok (some (.bytes [0, 255])) :=
  ⟨(c1_inline_b64_roundtrip _ "image/png".toList (by decide) (by decide)).1
     "SGk=".toList [72, 105] (by decide) (by decide) (by decide),
   (c1_inline_b64_roundtrip _ "image/png".toList (by decide) (by decide)).2
     [0, 255] (by decide) (by decide)⟩

/-- C8: a non-`None` value is returned only when the URL matched the
data-URI grammar or the network returned status 200; and whenever the URL
is not a data URI and no 200 response exists, the call fails with one of
the errors the module classifies and raises itself. -/
theorem c8_result_invariant (net : String → HttpOutcome) (url kind : String) :
    (∀ v : PyVal, get_content net url kind = .ok (some v) →
       (matchDataUrlL url.toList).isSome = true ∨
       ∃ r, net url = .success r ∧ r.status = 200) ∧
    (matchDataUrlL url.toList = none →
     (∀ r, net url = .success r → r.status ≠ 200) →
     ∃ e, get_content net url kind = .error e ∧ locallyClassified e = true) := by
  constructor
  · intro v hv
    cases hmatch : matchDataUrlL url.toList with
    | some g => exact Or.inl rfl
    | none =>
        refine Or.inr ?_
        have hc : check_data_url url = .ok none := by
          unfold check_data_url
          rw [hmatch]
        have hg : get_content net url kind = network_fetch net url kind := by
          unfold get_content
          rw [hc]
        rw [hg] at hv
        cases hnet : net url with
        | success r =>
            rw [network_fetch_success net url kind r hnet] at hv
            by_cases hs : r.status = 200
            · exact ⟨r, rfl, hs⟩
            · rw [handle_response_bad r kind hs] at hv
              cases hv
        | raiseInvalidURL =>
            rw [network_fetch_invalid net url kind hnet] at hv
            cases hv
        | raiseTimeout =>
            rw [network_fetch_timeout net url kind hnet] at hv
            cases hv
        | raiseConnectionError =>
            rw [network_fetch_connection net url kind hnet] at hv
            cases hv
  · intro hmatch hstat
    have hc : check_data_url url = .ok none := by
      unfold check_data_url
      rw [hmatch]
    have hg : get_content net url kind = network_fetch net url kind := by
      unfold get_content
      rw [hc]
    rw [hg]
    cases hnet : net url with
    | success r =>
        refine ⟨.badResponseError r.status, ?_, rfl⟩
        rw [network_fetch_success net url kind r hnet, handle_response_bad r kind (hstat r hnet)]
    | raiseInvalidURL =>
        exact ⟨.valueError "The URL provided is invalid.",
          network_fetch_invalid net url kind hnet, rfl⟩
    | raiseTimeout =>
        exact ⟨.valueError "Couldn't connect to URL. (Timeout)",
          network_fetch_timeout net url kind hnet, rfl⟩
    | raiseConnectionError =>
        exact ⟨.valueError "Couldn't connect to URL.",
          network_fetch_connection net url kind hnet, rfl⟩

/-- C8 witness. -/
theorem c8_witness :
    ∃ e, get_content (fun _ => .success ⟨404, none, [], .error ()⟩)
        "https://example.com" "bytes" = .error e ∧ locallyClassified e = true :=
  (c8_result_invariant (fun _ => .success ⟨404, none, [], .error ()⟩)
      "https://example.com" "bytes").2 (by decide)
    (fun r hr => by cases hr; decide)
